import Mathlib

/-
Shallow embedding of the capmatch-comms delivery core.

Source files embedded (translated from the Python source, one namespace each):
  services/invite-email/email_sender.py         -> namespace EmailSender
  services/invite-email/main.py                 -> namespace Main
  services/invite-email/invite_email_builder.py -> namespace InviteBuilder
  services/email-digest/email_builder.py        -> namespace DigestBuilder
  signed-webhook verification (not under src/)  -> namespace Webhook (spec-modelled)

Modelling conventions:
  - Environment-driven configuration (config.py) becomes an explicit Config record.
  - Python truthiness on Optional[str] (None and "" are falsy) is the helper pyTruthy;
    the Python string fallback idiom (x or "default") is the helper pyOr.
  - The Resend provider is external: each call to resend.Emails.send is modelled by a
    function from the attempt number to a ProviderOutcome (a normal response carrying
    an optional message id, a RateLimitError, another ResendError, or another raised
    exception).  time.sleep is modelled by recording the requested delay (in seconds,
    as a rational) in a trace.
  - The Supabase store is external: the values its reads return and whether its
    email_sent_at update raises are inputs (StoreEnv); process_invite returns an
    explicit trace of the effects it performed.
  - datetime values are abstracted to their strftime("%B %d, %Y") rendering
    (structure DateTime, field formatted); ISO8601 parsing (parse_expires_at) is
    abstracted accordingly: the embedded work item carries the parsed value.
  - The module-level cached template strings (loaded from disk at import time) are
    passed as an explicit templateHtml argument.
-/

namespace CapmatchComms

/-- Python truthiness of an Optional[str]: None and the empty string are falsy. -/
def pyTruthy : Option String → Bool
  | none => false
  | some s => !s.isEmpty

/-- The Python idiom (x or d) on an Optional[str]: falsy values fall back to d. -/
def pyOr : Option String → String → String
  | none, d => d
  | some s, d => if s.isEmpty then d else s

/-- A datetime value, abstracted to its strftime rendering used by the builders. -/
structure DateTime where
  formatted : String
deriving DecidableEq

/-- Whether pat occurs at the head of the character list. -/
def matchesAt : List Char → List Char → Bool
  | [], _ => true
  | _ :: _, [] => false
  | p :: ps, c :: cs => (p == c) && matchesAt ps cs

/-- Replace every non-overlapping occurrence of pat (nonempty in all uses) with
repl, scanning left to right; fuel bounds the recursion by the input length
(each step consumes at least one character, so the fuel never runs out). -/
def pyReplaceFuel (pat repl : List Char) : Nat → List Char → List Char
  | _, [] => []
  | 0, s => s
  | fuel + 1, c :: rest =>
    if matchesAt pat (c :: rest) then
      repl ++ pyReplaceFuel pat repl fuel (List.drop (pat.length - 1) rest)
    else
      c :: pyReplaceFuel pat repl fuel rest

/-- Python str.replace: replace every non-overlapping occurrence of pat with
repl, left to right (a structurally recursive equivalent of String.replace). -/
def pyReplace (s pat repl : String) : String :=
  String.mk (pyReplaceFuel pat.toList repl.toList s.toList.length s.toList)

/-- Python str.rstrip("/"): drop trailing occurrences of the character. -/
def pyRstrip (s : String) (c : Char) : String :=
  String.mk ((s.toList.reverse.dropWhile (fun x => x == c)).reverse)

/-- Environment-driven configuration (config.py, class Config). -/
structure Config where
  RESEND_API_KEY : Option String
  EMAIL_FROM : String
  RESEND_TEST_MODE : Bool
  RESEND_TEST_RECIPIENT : Option String
  RESEND_FORCE_TO_EMAIL : Option String
  INVITE_EMAIL_DRY_RUN : Bool
deriving DecidableEq

namespace EmailSender

/-- email_sender.py line 21. -/
def MAX_RETRIES : Nat := 3

/-- email_sender.py line 22. -/
def REQUESTS_PER_SECOND : Nat := 2

/-- email_sender.py line 23: THROTTLE_DELAY = 1 / REQUESTS_PER_SECOND (seconds). -/
def THROTTLE_DELAY : ℚ := 1 / (REQUESTS_PER_SECOND : ℚ)

/-- Outcome of one resend.Emails.send call: a normal response (whose id field is
response.get("id"), absent keys giving None), or one of the exception classes the
source distinguishes. -/
inductive ProviderOutcome where
  | ok (id : Option String)
  | rateLimited
  | resendError
  | otherError
deriving DecidableEq

/-- How _send_with_throttle_retry terminates: a normal return, or an exception
propagating out (the re-raised RateLimitError, a re-raised other ResendError, or
any other exception from the call). -/
inductive SendResult where
  | returned (b : Bool)
  | raisedRateLimit
  | raisedResendError
  | raisedOther
deriving DecidableEq

/-- Trace of one _send_with_throttle_retry run: its termination, the number of
provider calls made, and the sequence of time.sleep delays requested (seconds). -/
structure SendTrace where
  result : SendResult
  calls : Nat
  delays : List ℚ
deriving DecidableEq

/-- The attempt numbers iterated by the source loop: range(1, MAX_RETRIES + 1). -/
def attemptNumbers : List Nat := (List.range MAX_RETRIES).map (fun i => i + 1)

/-- email_sender.py lines 105-131, body of the for-loop of _send_with_throttle_retry,
iterated over the remaining attempt numbers.  Each attempt sleeps (THROTTLE_DELAY
before the first attempt, THROTTLE_DELAY * attempt before a retry), then calls the
provider; a normal response returns (message_id is not None); a RateLimitError at
the last attempt is re-raised, earlier ones continue the loop; any other
ResendError, or any other exception, propagates. -/
def runAttempts (provider : Nat → ProviderOutcome) : List Nat → SendTrace
  | [] => ⟨SendResult.returned false, 0, []⟩
  | attempt :: rest =>
    let d : ℚ := if attempt > 1 then THROTTLE_DELAY * (attempt : ℚ) else THROTTLE_DELAY
    match provider attempt with
    | ProviderOutcome.ok id => ⟨SendResult.returned id.isSome, 1, [d]⟩
    | ProviderOutcome.rateLimited =>
      if attempt == MAX_RETRIES then ⟨SendResult.raisedRateLimit, 1, [d]⟩
      else
        let t := runAttempts provider rest
        ⟨t.result, t.calls + 1, d :: t.delays⟩
    | ProviderOutcome.resendError => ⟨SendResult.raisedResendError, 1, [d]⟩
    | ProviderOutcome.otherError => ⟨SendResult.raisedOther, 1, [d]⟩

/-- email_sender.py lines 105-131: _send_with_throttle_retry. -/
def send_with_throttle_retry (provider : Nat → ProviderOutcome) : SendTrace :=
  runAttempts provider attemptNumbers

/-- email_sender.py lines 37-49: _determine_recipient. -/
def determine_recipient (cfg : Config) (user_email : String) : String :=
  if pyTruthy cfg.RESEND_FORCE_TO_EMAIL then cfg.RESEND_FORCE_TO_EMAIL.getD ("")
  else if cfg.RESEND_TEST_MODE then
    if pyTruthy cfg.RESEND_TEST_RECIPIENT then cfg.RESEND_TEST_RECIPIENT.getD ("")
    else user_email
  else user_email

/-- email_sender.py lines 62-63: the subject line built by send_invite_email. -/
def invite_subject (org_name : Option String) : String :=
  let subject_org := if pyTruthy org_name then (" to ") ++ org_name.getD ("") else ""
  ("You\x27re invited") ++ subject_org ++ (" on CapMatch")

/-- Observable outcome of send_invite_email: the returned bool, the number of
provider calls made, the recipient resolved before the send, and the sleep
delays requested. -/
structure SendOutcome where
  success : Bool
  providerCalls : Nat
  recipient : String
  delays : List ℚ
deriving DecidableEq

/-- email_sender.py lines 52-102: send_invite_email.  The recipient is resolved
first; dry-run mode returns True with no provider call; otherwise
_ensure_resend_api_key raises when no API key is configured (caught by the
generic handler, giving False with no provider call; the resend package is
assumed importable), then _send_with_throttle_retry runs and ResendError
(including the re-raised RateLimitError) and any other exception are caught and
converted to False. -/
def send_invite_email (cfg : Config) (provider : Nat → ProviderOutcome)
    (user_email : String) (user_name : Option String)
    (html_body text_body : String) (org_name : Option String) : SendOutcome :=
  let to_address := determine_recipient cfg user_email
  if cfg.INVITE_EMAIL_DRY_RUN then
    ⟨true, 0, to_address, []⟩
  else if !pyTruthy cfg.RESEND_API_KEY then
    ⟨false, 0, to_address, []⟩
  else
    let t := send_with_throttle_retry provider
    match t.result with
    | SendResult.returned b => ⟨b, t.calls, to_address, t.delays⟩
    | _ => ⟨false, t.calls, to_address, t.delays⟩

end EmailSender

namespace InviteBuilder

/-- invite_email_builder.py lines 52-102: build_invite_email.  TEMPLATE_HTML (the
module-level cached template, loaded from the first available candidate path
when the module loads; the empty string when none loads) is the templateHtml
argument.  Returns (html_body, text_body); (None, None) when the template is
unavailable. -/
def build_invite_email (templateHtml : String) (invited_email : String)
    (invitee_name org_name invited_by_name : Option String)
    (accept_url : String) (expires_at : Option DateTime) :
    Option String × Option String :=
  let display_invitee := pyOr invitee_name invited_email
  let display_org := pyOr org_name ("CapMatch")
  let inviter := pyOr invited_by_name ("a member of your team")
  let expires_text :=
    match expires_at with
    | some d => d.formatted
    | none => "soon"
  let text_lines : List String :=
    [s!"Hi {display_invitee},",
     "",
     s!"You\x27ve been invited to join {display_org} on CapMatch by {inviter}.",
     "",
     s!"Open this link to accept your invite: {accept_url}",
     "",
     s!"This invite will expire on {expires_text}.",
     "",
     "If you weren\x27t expecting this, you can ignore this email."]
  let text_body := ("\n").intercalate text_lines
  if templateHtml.isEmpty then (none, none)
  else
    let html_body :=
      pyReplace (pyReplace (pyReplace (pyReplace (pyReplace templateHtml
        ("\x7b\x7bINVITEE_NAME\x7d\x7d") display_invitee)
        ("\x7b\x7bORG_NAME\x7d\x7d") display_org)
        ("\x7b\x7bINVITED_BY_NAME\x7d\x7d") inviter)
        ("\x7b\x7bACCEPT_URL\x7d\x7d") accept_url)
        ("\x7b\x7bEXPIRES_TEXT\x7d\x7d") expires_text
    (some html_body, some text_body)

end InviteBuilder

namespace Main

/-- The columns of an invites row read by main.py (get_pending_invites select list).
email_sent_at and expires_at are nullable; expires_at carries the value
parse_expires_at produced from the raw column (ISO8601 parsing abstracted). -/
structure Invite where
  id : String
  status : String
  email_sent_at : Option String
  expires_at : Option DateTime
  token : Option String
  org_id : Option String
  invited_email : String
  invited_by : Option String
deriving DecidableEq

/-- main.py lines 55-64: get_pending_invites, the store query filtering on
status = pending and email_sent_at IS NULL, over a table of rows. -/
def get_pending_invites (table : List Invite) : List Invite :=
  table.filter (fun i => i.status == ("pending") && i.email_sent_at.isNone)

/-- External behavior of the store during one process_invite run: what
fetch_org_name and fetch_inviter_name return (both catch their own exceptions
and return None on failure), and whether the email_sent_at update raises. -/
structure StoreEnv where
  orgName : Option String
  inviterName : Option String
  updateFails : Bool
deriving DecidableEq

/-- Trace of one process_invite run: the returned bool and the effects performed. -/
structure ProcessTrace where
  result : Bool
  senderInvocations : Nat
  senderSucceeded : Bool
  providerCalls : Nat
  updateAttempts : Nat
  committed : Bool
  commitAnomalyLogged : Bool
  sendFailureLogged : Bool
  renderFailureLogged : Bool
deriving DecidableEq

/-- Python falsiness of the Optional[str] email bodies (None or "" are falsy),
as tested by main.py line 153 (if not html_body or not text_body). -/
def falsyStr : Option String → Bool
  | none => true
  | some s => s.isEmpty

/-- main.py lines 125-126: org_name = fetch_org_name(sb, org_id) if org_id else
None (the fetch catches its own exceptions and yields None on failure). -/
def org_display_name (store : StoreEnv) (invite : Invite) : Option String :=
  if pyTruthy invite.org_id then store.orgName else none

/-- main.py lines 128-129: inviter_name, resolved the same way. -/
def inviter_display_name (store : StoreEnv) (invite : Invite) : Option String :=
  if pyTruthy invite.invited_by then store.inviterName else none

/-- main.py lines 140-141: the accept link built from the stripped base URL and
the token (the bare base URL when the token is falsy). -/
def accept_url (invite : Invite) (app_base_url : String) : String :=
  let base_url := pyRstrip app_base_url '/'
  if pyTruthy invite.token then
    base_url ++ ("/accept-invite?token=") ++ invite.token.getD ("")
  else base_url

/-- main.py lines 144-151: the email bodies built for one invite (invitee_name
is passed as None; expires_at is the parsed value). -/
def built_email (templateHtml : String) (store : StoreEnv) (invite : Invite)
    (app_base_url : String) : Option String × Option String :=
  InviteBuilder.build_invite_email templateHtml invite.invited_email none
    (org_display_name store invite) (inviter_display_name store invite)
    (accept_url invite app_base_url) invite.expires_at

/-- main.py lines 115-188: process_invite.  Fetches display names (when the
foreign keys are truthy), builds the accept URL, builds the email, returns False
when either body is falsy; otherwise invokes send_invite_email, returns False on
send failure; otherwise attempts the email_sent_at update exactly once, and
returns True even when that update raises (logging the anomaly).  Note the
source performs no re-check of invite.status or invite.email_sent_at here. -/
def process_invite (templateHtml : String) (cfg : Config)
    (provider : Nat → EmailSender.ProviderOutcome) (store : StoreEnv)
    (invite : Invite) (app_base_url : String) : ProcessTrace :=
  let built := built_email templateHtml store invite app_base_url
  if falsyStr built.1 || falsyStr built.2 then
    ⟨false, 0, false, 0, 0, false, false, false, true⟩
  else
    let s := EmailSender.send_invite_email cfg provider invite.invited_email none
      (built.1.getD ("")) (built.2.getD ("")) (org_display_name store invite)
    if !s.success then
      ⟨false, 1, false, s.providerCalls, 0, false, false, true, false⟩
    else if store.updateFails then
      ⟨true, 1, true, s.providerCalls, 1, false, true, false, false⟩
    else
      ⟨true, 1, true, s.providerCalls, 1, true, false, false, false⟩

end Main

namespace DigestBuilder

/-- A digest event row as consumed by email_builder.py: project_id, event_type,
and the payload's mentioned_user_ids list (msg.get("payload", {}) followed by
.get("mentioned_user_ids", []), so an absent list is the empty list). -/
structure DigestEvent where
  id : String
  project_id : String
  event_type : String
  mentioned_user_ids : List String
deriving DecidableEq

/-- The inner dict of by_project: event_type -> list of events, in insertion order. -/
abbrev TypeGroups := List (String × List DigestEvent)

/-- The outer dict of by_project: project_id -> inner dict, in insertion order. -/
abbrev ProjectGroups := List (String × TypeGroups)

/-- Append an event under its event_type key, as defaultdict(list) does: an
existing key keeps its position and gets the event appended; a new key is
appended at the end. -/
def addToGroup : TypeGroups → String → DigestEvent → TypeGroups
  | [], t, e => [(t, [e])]
  | (t0, es) :: rest, t, e =>
    if t0 = t then (t0, es ++ [e]) :: rest
    else (t0, es) :: addToGroup rest t e

/-- Insert one event into the two-level grouping, as the loop body of
email_builder.py lines 40-43 does on the nested defaultdicts. -/
def addEvent : ProjectGroups → DigestEvent → ProjectGroups
  | [], e => [(e.project_id, [(e.event_type, [e])])]
  | (p0, tg) :: rest, e =>
    if p0 = e.project_id then (p0, addToGroup tg e.event_type e) :: rest
    else (p0, tg) :: addEvent rest e

/-- email_builder.py lines 39-43: the by_project nested grouping, keys in
first-seen (dict insertion) order. -/
def by_project (events : List DigestEvent) : ProjectGroups :=
  events.foldl addEvent []

/-- The keys of an insertion-ordered dict. -/
def keysOf {α : Type} (g : List (String × α)) : List String := g.map Prod.fst

/-- Dict key lookup on the inner grouping (first matching key; keys are unique
by construction). -/
def lookupT : TypeGroups → String → List DigestEvent
  | [], _ => []
  | (t0, es) :: rest, t => if t0 = t then es else lookupT rest t

/-- Dict key lookup on the outer grouping. -/
def lookupP : ProjectGroups → String → TypeGroups
  | [], _ => []
  | (p0, tg) :: rest, p => if p0 = p then tg else lookupP rest p

/-- Python key membership test (t in event_types) on the inner grouping. -/
def containsT : TypeGroups → String → Bool
  | [], _ => false
  | (t0, _) :: rest, t => if t0 = t then true else containsT rest t

/-- The project-id order a Python dict built by first-seen insertion exposes. -/
def projectOrder (events : List DigestEvent) : List String :=
  events.foldl (fun acc e => if e.project_id ∈ acc then acc else acc ++ [e.project_id]) []

/-- Python dict .get(key, default) on a string-to-string mapping (project_names). -/
def dictGet (m : List (String × String)) (k d : String) : String :=
  match m.find? (fun kv => kv.1 == k) with
  | some kv => kv.2
  | none => d

/-- email_builder.py line 15. -/
def CTA_URL : String := "https://capmatch.com/dashboard"

/-- email_builder.py line 16. -/
def MANAGE_PREFS_URL : String := "https://capmatch.com/settings/notifications"

/-- email_builder.py lines 126-127: message_icon. -/
def message_icon : String :=
  "<svg width=\"20\" height=\"20\" viewBox=\"0 0 24 24\" fill=\"none\" stroke=\"#3B82F6\" stroke-width=\"1.7\" stroke-linecap=\"round\" stroke-linejoin=\"round\"><path d=\"M21 11.5a8.38 8.38 0 0 1-.9 3.8 8.5 8.5 0 0 1-7.6 4.7 8.38 8.38 0 0 1-3.8-.9L3 21l1.9-5.7a8.38 8.38 0 0 1-.9-3.8 8.5 8.5 0 0 1 4.7-7.6 8.38 8.38 0 0 1 3.8-.9h0a8.5 8.5 0 0 1 8.5 8.5Z\"/></svg>"

/-- email_builder.py lines 130-131: document_icon. -/
def document_icon : String :=
  "<svg width=\"20\" height=\"20\" viewBox=\"0 0 24 24\" fill=\"none\" stroke=\"#3B82F6\" stroke-width=\"1.7\" stroke-linecap=\"round\" stroke-linejoin=\"round\"><path d=\"M13 2H6a2 2 0 0 0-2 2v16a2 2 0 0 0 2 2h12a2 2 0 0 0 2-2V9Z\"/><path d=\"M13 2v7h7\"/><path d=\"M9 13h6\"/><path d=\"M9 17h6\"/></svg>"

/-- email_builder.py lines 91-123: render_project_card. -/
def render_project_card (project_name : String) (event_types : TypeGroups)
    (user_id : String) : String :=
  let chatRows : List String :=
    if containsT event_types ("chat_message_sent") then
      let messages := lookupT event_types ("chat_message_sent")
      let count := messages.length
      let mentions :=
        (messages.filter (fun m => m.mentioned_user_ids.contains user_id)).length
      let mention_text := if mentions ≠ 0 then s!" ({mentions} mentioned you)" else ""
      [("<p style=\"display:flex;align-items:center;gap:10px;font-weight:500;color:#1F2937;margin:6px 0;\"><span>")
        ++ message_icon
        ++ s!"</span><span><strong>{count}</strong> new message(s){mention_text}</span></p>"]
    else []
  let docRows : List String :=
    if containsT event_types ("document_uploaded") then
      let docs := lookupT event_types ("document_uploaded")
      let count := docs.length
      [("<p style=\"display:flex;align-items:center;gap:10px;font-weight:500;color:#1F2937;margin:6px 0;\"><span>")
        ++ document_icon
        ++ s!"</span><span><strong>{count}</strong> new document upload(s)</span></p>"]
    else []
  let rows := chatRows ++ docRows
  let rows :=
    if rows.isEmpty then
      [("<p style=\"color:#94A3B8;font-size:14px;margin:6px 0;\">No activity matched your preferences.</p>")]
    else rows
  ("<div style=\"background:#F8FAFF;border-radius:20px;border:1px solid #BFDBFE;padding:24px;margin-bottom:16px;\">")
    ++ s!"<p style=\"font-size:18px;color:#3B82F6;margin:0 0 12px 0;font-weight:600;\">{project_name}</p>"
    ++ String.join rows
    ++ ("</div>")

/-- email_builder.py lines 134-137: build_preview_text.  The size of the Python
set of project ids is the number of distinct ids, i.e. the length of the
first-seen-order key list. -/
def build_preview_text (events : List DigestEvent) : String :=
  let total := events.length
  let projects := (projectOrder events).length
  s!"{total} updates across {projects} project(s)"

/-- The per-project block appended to text_parts by the loop body of
email_builder.py lines 51-74 (name, underline, chat summary line when present,
document summary line when present, blank separator). -/
def digest_text_section (project_names : List (String × String)) (user_id : String)
    (g : String × TypeGroups) : List String :=
  let project_name := dictGet project_names g.1 ("A project")
  let underline := ("").pushn '-' project_name.length
  let base : List String := [project_name ++ ("\n"), underline ++ ("\n")]
  let chat : List String :=
    if containsT g.2 ("chat_message_sent") then
      let messages := lookupT g.2 ("chat_message_sent")
      let count := messages.length
      let mentions :=
        (messages.filter (fun m => m.mentioned_user_ids.contains user_id)).length
      let mention_text := if mentions ≠ 0 then s!" ({mentions} mentioned you)" else ""
      [s!"- {count} new message(s){mention_text}\n"]
    else []
  let docs : List String :=
    if containsT g.2 ("document_uploaded") then
      let ds := lookupT g.2 ("document_uploaded")
      let count := ds.length
      [s!"- {count} new document upload(s)\n"]
    else []
  base ++ chat ++ docs ++ [("\n")]

/-- email_builder.py lines 25-88: build_digest_email.  TEMPLATE_HTML (module
cache, empty string when the file was missing) is the templateHtml argument;
digest_date is abstracted to its strftime rendering.  Returns (None, None) on
empty input or missing template. -/
def build_digest_email (templateHtml : String) (events : List DigestEvent)
    (user_name : Option String) (project_names : List (String × String))
    (user_id : String) (digest_date : DateTime) : Option String × Option String :=
  if events.isEmpty then (none, none)
  else if templateHtml.isEmpty then (none, none)
  else
    let groups := by_project events
    let html_sections := groups.map (fun g =>
      render_project_card (dictGet project_names g.1 ("A project")) g.2 user_id)
    let greet := pyOr user_name ("there")
    let dateStr := digest_date.formatted
    let header : List String :=
      [("CapMatch Daily Digest\n"),
       s!"Hey {greet}, here\x27s what happened on {dateStr}\n\n"]
    let text_parts := header ++ groups.flatMap (digest_text_section project_names user_id)
    let footer : List String :=
      [s!"Open CapMatch: {CTA_URL}\n", s!"Manage preferences: {MANAGE_PREFS_URL}\n"]
    let html_body :=
      pyReplace (pyReplace (pyReplace (pyReplace (pyReplace (pyReplace templateHtml
        ("\x7b\x7bPREVIEW_TEXT\x7d\x7d") (build_preview_text events))
        ("\x7b\x7bUSER_NAME\x7d\x7d") greet)
        ("\x7b\x7bDIGEST_DATE\x7d\x7d") dateStr)
        ("\x7b\x7bCTA_URL\x7d\x7d") CTA_URL)
        ("\x7b\x7bMANAGE_PREFS_URL\x7d\x7d") MANAGE_PREFS_URL)
        ("<!--PROJECT_SECTIONS-->") (("\n").intercalate html_sections)
    (some html_body, some (String.join (text_parts ++ footer)))

end DigestBuilder

namespace Webhook

/-- Modelled from the spec: the signed-webhook verification protocol of spec
section 4.4 - the webhook endpoint source is not under src/ (only the spec
describes it), so the verification is embedded from the spec text.  Rejection
reasons as named there. -/
inductive WebhookReject where
  | ServiceMisconfigured
  | InvalidTimestamp
  | StaleRequest
  | InvalidSignature
deriving DecidableEq

/-- Modelled from the spec: decimal digit accumulation for integer parsing. -/
def digitsToNatAux : List Char → Nat → Option Nat
  | [], acc => some acc
  | c :: rest, acc =>
    if c.isDigit then digitsToNatAux rest (acc * 10 + (c.toNat - 48)) else none

/-- Modelled from the spec: parsing the timestamp header as an integer (spec
section 4.4 step 2 - int(header)): an optional leading minus sign followed by
at least one decimal digit. -/
def parseIntHeader (s : String) : Option Int :=
  match s.toList with
  | [] => none
  | '-' :: rest =>
    match rest with
    | [] => none
    | _ => (digitsToNatAux rest 0).map (fun n => -(n : Int))
  | l => (digitsToNatAux l 0).map (fun n => (n : Int))

/-- Modelled from the spec: the constant-time comparison of the provided and
recomputed signatures (hmac.compare_digest style) - a length check combined
with an accumulated bitwise-or of per-character xors, examining every character
pair regardless of where the first mismatch occurs. -/
def constantTimeEq (a b : String) : Bool :=
  (a.length == b.length) &&
  (((a.toList.zip b.toList).foldl
      (fun acc p => acc ||| (p.1.toNat ^^^ p.2.toNat)) 0) == 0)

/-- Modelled from the spec: authenticate_and_resolve's verification steps 1-4
(spec section 4.4); the webhook endpoint source is not under src/.  HMAC-SHA256
is abstracted as the mac argument (keyed over the secret); the signed message is
timestamp + "." + raw_body.  Step 1 rejects a missing secret, step 2 an
unparseable timestamp header, step 3 a timestamp more than 300 seconds from now
in either direction, step 4 a signature that fails the constant-time comparison
against the recomputed MAC. -/
def verify_webhook (secret : Option String) (mac : String → String → String)
    (now : Int) (timestamp_header : String) (raw_body : String)
    (signature : String) : Except WebhookReject Unit :=
  match secret with
  | none => Except.error WebhookReject.ServiceMisconfigured
  | some sec =>
    if sec.isEmpty then Except.error WebhookReject.ServiceMisconfigured
    else
      match parseIntHeader timestamp_header with
      | none => Except.error WebhookReject.InvalidTimestamp
      | some ts =>
        if (now - ts).natAbs > 300 then Except.error WebhookReject.StaleRequest
        else if constantTimeEq signature
            (mac sec (timestamp_header ++ (".") ++ raw_body)) then
          Except.ok ()
        else Except.error WebhookReject.InvalidSignature

end Webhook

/-
Helper lemmas (shared infrastructure; the per-claim theorems follow below).
-/

open EmailSender Main DigestBuilder Webhook

lemma attemptNumbers_eq : attemptNumbers = [1, 2, 3] := by decide

lemma send_dry_run_eq (cfg : Config) (hdry : cfg.INVITE_EMAIL_DRY_RUN = true)
    (prov : Nat → ProviderOutcome) (e : String) (un : Option String)
    (hb tb : String) (org : Option String) :
    send_invite_email cfg prov e un hb tb org
      = ⟨true, 0, determine_recipient cfg e, []⟩ := by
  simp [send_invite_email, hdry]

lemma natOr_eq_zero {a b : Nat} : a ||| b = 0 ↔ a = 0 ∧ b = 0 := by
  constructor
  · intro h
    have hbit : ∀ i, a.testBit i = false ∧ b.testBit i = false := by
      intro i
      have hh := congrArg (fun n => n.testBit i) h
      simp [Nat.testBit_or] at hh
      exact hh
    constructor
    · exact Nat.eq_of_testBit_eq (fun i => by simp [(hbit i).1])
    · exact Nat.eq_of_testBit_eq (fun i => by simp [(hbit i).2])
  · rintro ⟨rfl, rfl⟩
    rfl

lemma charToNat_inj {c d : Char} (h : c.toNat = d.toNat) : c = d := by
  have h2 : c.val.toNat = d.val.toNat := h
  exact Char.ext (UInt32.toNat.inj h2)

lemma foldl_or_xor_eq_zero : ∀ (l : List (Char × Char)) (acc : Nat),
    (l.foldl (fun acc p => acc ||| (p.1.toNat ^^^ p.2.toNat)) acc = 0
      ↔ acc = 0 ∧ ∀ p ∈ l, p.1 = p.2)
  | [], acc => by simp
  | p :: rest, acc => by
    rw [List.foldl_cons, foldl_or_xor_eq_zero rest]
    constructor
    · rintro ⟨h1, h2⟩
      obtain ⟨ha, hx⟩ := natOr_eq_zero.mp h1
      refine ⟨ha, ?_⟩
      intro q hq
      rcases List.mem_cons.mp hq with hq | hq
      · rw [hq]
        exact charToNat_inj (Nat.xor_eq_zero.mp hx)
      · exact h2 q hq
    · rintro ⟨ha, hall⟩
      refine ⟨?_, fun q hq => hall q (by simp [hq])⟩
      rw [ha, Nat.zero_or, Nat.xor_eq_zero]
      exact congrArg Char.toNat (hall p (by simp))

lemma mem_zip_same : ∀ (l : List Char) (p : Char × Char), p ∈ l.zip l → p.1 = p.2
  | [], _, h => by simp at h
  | a :: as, p, h => by
    rcases (by simpa using h : p = (a, a) ∨ p ∈ as.zip as) with h | h
    · rw [h]
    · exact mem_zip_same as p h

lemma zip_pointwise_eq (l1 : List Char) : ∀ (l2 : List Char),
    l1.length = l2.length → (∀ p ∈ l1.zip l2, p.1 = p.2) → l1 = l2 := by
  induction l1 with
  | nil =>
    intro l2 hlen _
    cases l2 with
    | nil => rfl
    | cons b bs => simp at hlen
  | cons a as ih =>
    intro l2 hlen hp
    cases l2 with
    | nil => simp at hlen
    | cons b bs =>
      have h1 : a = b := hp (a, b) (by simp)
      have h2 : as = bs := ih bs (by simpa using hlen) (fun p hm => hp p (by simp [hm]))
      rw [h1, h2]

lemma ctEq_iff (a b : String) : constantTimeEq a b = true ↔ a = b := by
  unfold constantTimeEq
  rw [Bool.and_eq_true, beq_iff_eq, beq_iff_eq]
  constructor
  · rintro ⟨hlen, hfold⟩
    have hlen' : a.toList.length = b.toList.length := hlen
    have hall := ((foldl_or_xor_eq_zero (a.toList.zip b.toList) 0).mp hfold).2
    have hdata : a.toList = b.toList := zip_pointwise_eq _ _ hlen' hall
    exact String.ext hdata
  · rintro rfl
    refine ⟨rfl, (foldl_or_xor_eq_zero _ 0).mpr ⟨rfl, mem_zip_same a.toList⟩⟩

lemma keysOf_addEvent (g : ProjectGroups) (e : DigestEvent) :
    keysOf (addEvent g e) =
      if e.project_id ∈ keysOf g then keysOf g else keysOf g ++ [e.project_id] := by
  induction g with
  | nil => simp [addEvent, keysOf]
  | cons hd tl ih =>
    obtain ⟨p0, tg⟩ := hd
    by_cases hp : p0 = e.project_id
    · simp [addEvent, hp, keysOf]
    · have hne : e.project_id ≠ p0 := fun h => hp h.symm
      simp only [addEvent, if_neg hp, keysOf, List.map_cons] at ih ⊢
      rw [ih]
      by_cases hmem : e.project_id ∈ List.map Prod.fst tl
      · simp [hmem, hne]
      · simp [hmem, hne]

lemma lookupT_addToGroup (tg : TypeGroups) (t : String) (e : DigestEvent)
    (t' : String) :
    lookupT (addToGroup tg t e) t' =
      if t = t' then lookupT tg t' ++ [e] else lookupT tg t' := by
  induction tg with
  | nil =>
    by_cases h : t = t'
    · simp [addToGroup, lookupT, h]
    · simp [addToGroup, lookupT, h]
  | cons hd tl ih =>
    obtain ⟨t0, es⟩ := hd
    by_cases h0 : t0 = t
    · subst h0
      by_cases h1 : t0 = t'
      · simp [addToGroup, lookupT, h1]
      · simp [addToGroup, lookupT, h1]
    · by_cases h1 : t0 = t'
      · subst h1
        have hneq : ¬t = t0 := fun h => h0 h.symm
        simp [addToGroup, lookupT, h0, hneq]
      · simp [addToGroup, lookupT, h0, h1, ih]

lemma lookupP_addEvent (g : ProjectGroups) (e : DigestEvent) (p : String) :
    lookupP (addEvent g e) p =
      if e.project_id = p then addToGroup (lookupP g p) e.event_type e
      else lookupP g p := by
  induction g with
  | nil =>
    by_cases h : e.project_id = p
    · simp [addEvent, lookupP, addToGroup, h]
    · simp [addEvent, lookupP, h]
  | cons hd tl ih =>
    obtain ⟨p0, tg⟩ := hd
    by_cases h0 : p0 = e.project_id
    · subst h0
      by_cases h1 : e.project_id = p
      · simp [addEvent, lookupP, h1]
      · simp [addEvent, lookupP, h1]
    · by_cases h1 : p0 = p
      · subst h1
        have hneq : ¬e.project_id = p0 := fun h => h0 h.symm
        simp [addEvent, lookupP, h0, hneq]
      · simp [addEvent, lookupP, h0, h1, ih]

lemma keysOf_foldl (events : List DigestEvent) : ∀ (g : ProjectGroups),
    keysOf (events.foldl addEvent g) =
      events.foldl
        (fun acc e => if e.project_id ∈ acc then acc else acc ++ [e.project_id])
        (keysOf g) := by
  induction events with
  | nil => intro g; rfl
  | cons e rest ih =>
    intro g
    rw [List.foldl_cons, List.foldl_cons, ih, keysOf_addEvent]

lemma by_project_keys (events : List DigestEvent) :
    keysOf (by_project events) = projectOrder events := by
  rw [by_project, projectOrder, keysOf_foldl]
  rfl

lemma lookup_foldl (events : List DigestEvent) : ∀ (g : ProjectGroups) (p t : String),
    lookupT (lookupP (events.foldl addEvent g) p) t =
      lookupT (lookupP g p) t
        ++ events.filter (fun e => e.project_id == p && e.event_type == t) := by
  induction events with
  | nil => intro g p t; simp
  | cons e rest ih =>
    intro g p t
    rw [List.foldl_cons, ih, lookupP_addEvent]
    by_cases hp : e.project_id = p
    · rw [if_pos hp, lookupT_addToGroup]
      by_cases ht : e.event_type = t
      · rw [if_pos ht]
        rw [List.filter_cons_of_pos (by simp [hp, ht]), List.append_assoc]
        simp
      · rw [if_neg ht]
        rw [List.filter_cons_of_neg (by simp [ht])]
    · rw [if_neg hp]
      rw [List.filter_cons_of_neg (by simp [hp])]

lemma by_project_lookup (events : List DigestEvent) (p t : String) :
    lookupT (lookupP (by_project events) p) t =
      events.filter (fun e => e.project_id == p && e.event_type == t) := by
  rw [by_project, lookup_foldl]
  rfl

lemma keysOf_foldl_nodup (events : List DigestEvent) : ∀ (g : ProjectGroups),
    (keysOf g).Nodup → (keysOf (events.foldl addEvent g)).Nodup := by
  induction events with
  | nil => intro g h; exact h
  | cons e rest ih =>
    intro g h
    rw [List.foldl_cons]
    apply ih
    rw [keysOf_addEvent]
    by_cases hmem : e.project_id ∈ keysOf g
    · simp [hmem, h]
    · simp [hmem, h, List.nodup_append]

lemma by_project_keys_nodup (events : List DigestEvent) :
    (keysOf (by_project events)).Nodup :=
  keysOf_foldl_nodup events [] (by simp [keysOf])

lemma lookupP_of_mem : ∀ (g : ProjectGroups) (p : String) (tg : TypeGroups),
    (keysOf g).Nodup → (p, tg) ∈ g → lookupP g p = tg
  | [], p, tg, _, hmem => by simp at hmem
  | (p0, tg0) :: rest, p, tg, hnd, hmem => by
    rcases List.mem_cons.mp hmem with h | h
    · rw [Prod.mk.injEq] at h
      obtain ⟨hp, ht⟩ := h
      simp [lookupP, hp, ht]
    · have hpmem : p ∈ keysOf rest := by
        have := List.mem_map_of_mem Prod.fst h
        simpa [keysOf] using this
      have hn0 : p0 ∉ keysOf rest := by
        simp only [keysOf, List.map_cons] at hnd
        exact (List.nodup_cons.mp hnd).1
      have hne : p0 ≠ p := fun hh => hn0 (hh ▸ hpmem)
      have htail : (keysOf rest).Nodup := by
        simp only [keysOf, List.map_cons] at hnd
        exact (List.nodup_cons.mp hnd).2
      simp only [lookupP, if_neg hne]
      exact lookupP_of_mem rest p tg htail h

lemma map_eq_keys_map {α : Type} : ∀ (g : ProjectGroups) (f : String × TypeGroups → α),
    (keysOf g).Nodup →
    g.map f = (keysOf g).map (fun p => f (p, lookupP g p))
  | [], f, _ => rfl
  | (p0, tg0) :: rest, f, hnd => by
    simp only [keysOf, List.map_cons] at hnd ⊢
    have hn0 : p0 ∉ List.map Prod.fst rest := (List.nodup_cons.mp hnd).1
    have htail : (List.map Prod.fst rest).Nodup := (List.nodup_cons.mp hnd).2
    have hrec := map_eq_keys_map rest f htail
    simp only [keysOf] at hrec
    congr 1
    · simp [lookupP]
    · rw [hrec]
      apply List.map_congr_left
      intro p hp
      have hne : p0 ≠ p := fun hh => hn0 (hh ▸ hp)
      simp [lookupP, hne]

/-
Claim theorems.
-/

set_option maxRecDepth 400000

/-- C1 (counterexample): the claim that process_invite re-checks eligibility at
process time fails on the code - for a concrete work item whose status is
accepted and whose email_sent_at is already non-null, process_invite still
invokes the Sender (send_invite_email) when the item is offered to it. -/
theorem c1_process_time_recheck_counterexample :
    (⟨("inv-1"), ("accepted"), some ("2024-06-01T00:00:00Z"), none, some ("tok"),
        none, ("user@example.com"), none⟩ : Invite).email_sent_at ≠ none
    ∧ (⟨("inv-1"), ("accepted"), some ("2024-06-01T00:00:00Z"), none, some ("tok"),
        none, ("user@example.com"), none⟩ : Invite).status ≠ ("pending")
    ∧ (process_invite ("X")
        ⟨some ("k"), ("noreply@capmatch.com"), false, none, none, true⟩
        (fun _ => ProviderOutcome.rateLimited) ⟨none, none, false⟩
        ⟨("inv-1"), ("accepted"), some ("2024-06-01T00:00:00Z"), none, some ("tok"),
          none, ("user@example.com"), none⟩
        ("https://app.capmatch.com")).senderInvocations = 1 :=
  ⟨by decide, by decide, by decide⟩

/-- C1 (amended): eligibility (status == pending AND email_sent_at IS NULL) is
enforced at fetch time only - get_pending_invites returns exactly the rows
satisfying it, so the poll path never offers an already-sent or non-pending
item to process_invite; process_invite itself performs no re-check, and whether
it invokes the Sender depends only on whether the email bodies rendered, not on
the item's status or email_sent_at. -/
theorem c1_eligibility_checked_at_fetch_only (table : List Invite) (inv : Invite) :
    (inv ∈ get_pending_invites table ↔
      inv ∈ table ∧ inv.status = ("pending") ∧ inv.email_sent_at = none)
    ∧ (inv.email_sent_at ≠ none → inv ∉ get_pending_invites table)
    ∧ (∀ (tmpl : String) (cfg : Config) (prov : Nat → ProviderOutcome)
        (store : StoreEnv) (url : String),
        (process_invite tmpl cfg prov store inv url).senderInvocations
          = if falsyStr (built_email tmpl store inv url).1
              || falsyStr (built_email tmpl store inv url).2 then 0 else 1) := by
  refine ⟨?_, ?_, ?_⟩
  · simp [get_pending_invites, List.mem_filter, Option.isNone_iff_eq_none, and_assoc]
  · intro h hmem
    simp [get_pending_invites, List.mem_filter, Option.isNone_iff_eq_none] at hmem
    exact h hmem.2.2
  · intro tmpl cfg prov store url
    by_cases h1 : (falsyStr (built_email tmpl store inv url).1
        || falsyStr (built_email tmpl store inv url).2) = true
    · simp [process_invite, h1]
    · simp only [process_invite, h1, Bool.false_eq_true, if_false]
      split
      · rfl
      · split <;> rfl

/-- C1 (witness): a concrete already-sent invite in the table is not returned
by get_pending_invites. -/
theorem c1_eligibility_checked_at_fetch_only_witness :
    (⟨("inv-2"), ("pending"), some ("2024-06-01T00:00:00Z"), none, some ("tok"),
        none, ("b@example.com"), none⟩ : Invite)
      ∉ get_pending_invites
        [⟨("inv-1"), ("pending"), none, none, some ("tok"), none,
          ("a@example.com"), none⟩,
         ⟨("inv-2"), ("pending"), some ("2024-06-01T00:00:00Z"), none, some ("tok"),
          none, ("b@example.com"), none⟩] :=
  (c1_eligibility_checked_at_fetch_only
    [⟨("inv-1"), ("pending"), none, none, some ("tok"), none,
      ("a@example.com"), none⟩,
     ⟨("inv-2"), ("pending"), some ("2024-06-01T00:00:00Z"), none, some ("tok"),
      none, ("b@example.com"), none⟩]
    ⟨("inv-2"), ("pending"), some ("2024-06-01T00:00:00Z"), none, some ("tok"),
      none, ("b@example.com"), none⟩).2.1 (by decide)

/-- C2: the email_sent_at update is attempted exactly once when and only when
the Sender reported success (so only after a successful send); when the update
fails, process_invite still returns True, and the anomaly is logged distinctly
from a send failure (commitAnomalyLogged, not sendFailureLogged). -/
theorem c2_commit_only_after_send_success (tmpl : String) (cfg : Config)
    (prov : Nat → ProviderOutcome) (store : StoreEnv) (inv : Invite)
    (url : String) :
    ((process_invite tmpl cfg prov store inv url).updateAttempts
      = if (process_invite tmpl cfg prov store inv url).senderSucceeded then 1
        else 0)
    ∧ ((process_invite tmpl cfg prov store inv url).senderSucceeded = true →
        (process_invite tmpl cfg prov store inv url).result = true)
    ∧ ((process_invite tmpl cfg prov store inv url).senderSucceeded = true →
        store.updateFails = true →
        (process_invite tmpl cfg prov store inv url).result = true
        ∧ (process_invite tmpl cfg prov store inv url).commitAnomalyLogged = true
        ∧ (process_invite tmpl cfg prov store inv url).sendFailureLogged = false) := by
  by_cases h1 : (falsyStr (built_email tmpl store inv url).1
      || falsyStr (built_email tmpl store inv url).2) = true
  · simp [process_invite, h1]
  · by_cases h2 : (send_invite_email cfg prov inv.invited_email none
        ((built_email tmpl store inv url).1.getD (""))
        ((built_email tmpl store inv url).2.getD (""))
        (org_display_name store inv)).success = true
    · by_cases h3 : store.updateFails = true
      · simp [process_invite, h1, h2, h3]
      · simp [process_invite, h1, h2, h3]
    · simp [process_invite, h1, h2]

/-- C2 (witness): with a successful (dry-run) send and a failing store update,
the concrete run returns True and logs the commit anomaly, not a send failure. -/
theorem c2_commit_only_after_send_success_witness :
    (process_invite ("X")
        ⟨some ("k"), ("noreply@capmatch.com"), false, none, none, true⟩
        (fun _ => ProviderOutcome.rateLimited) ⟨none, none, true⟩
        ⟨("inv-1"), ("pending"), none, none, some ("tok"), none,
          ("user@example.com"), none⟩
        ("https://app.capmatch.com")).result = true
    ∧ (process_invite ("X")
        ⟨some ("k"), ("noreply@capmatch.com"), false, none, none, true⟩
        (fun _ => ProviderOutcome.rateLimited) ⟨none, none, true⟩
        ⟨("inv-1"), ("pending"), none, none, some ("tok"), none,
          ("user@example.com"), none⟩
        ("https://app.capmatch.com")).commitAnomalyLogged = true := by
  have h := (c2_commit_only_after_send_success ("X")
    ⟨some ("k"), ("noreply@capmatch.com"), false, none, none, true⟩
    (fun _ => ProviderOutcome.rateLimited) ⟨none, none, true⟩
    ⟨("inv-1"), ("pending"), none, none, some ("tok"), none,
      ("user@example.com"), none⟩
    ("https://app.capmatch.com")).2.2 (by decide) rfl
  exact ⟨h.1, h.2.1⟩

/-- C3: with a provider that always reports rate-limited (and dry-run off, an
API key configured), the send makes exactly MAX_RETRIES = 3 provider calls,
returns False to the caller, and the requested sleep delays are THROTTLE_DELAY
before the first attempt and THROTTLE_DELAY * attempt before each retry, with
THROTTLE_DELAY = 1/2 second (2 requests per second). -/
theorem c3_rate_limited_retry_bound (cfg : Config)
    (hdry : cfg.INVITE_EMAIL_DRY_RUN = false)
    (hkey : pyTruthy cfg.RESEND_API_KEY = true)
    (email : String) (un : Option String) (hb tb : String) (org : Option String) :
    (send_invite_email cfg (fun _ => ProviderOutcome.rateLimited)
        email un hb tb org).providerCalls = MAX_RETRIES
    ∧ MAX_RETRIES = 3
    ∧ (send_invite_email cfg (fun _ => ProviderOutcome.rateLimited)
        email un hb tb org).success = false
    ∧ (send_invite_email cfg (fun _ => ProviderOutcome.rateLimited)
        email un hb tb org).delays
      = [THROTTLE_DELAY, THROTTLE_DELAY * 2, THROTTLE_DELAY * 3]
    ∧ THROTTLE_DELAY = 1 / 2 := by
  simp only [send_invite_email, hdry, hkey, send_with_throttle_retry,
    attemptNumbers_eq, runAttempts, MAX_RETRIES, THROTTLE_DELAY,
    REQUESTS_PER_SECOND]
  norm_num

/-- C3 (witness): the retry-bound theorem applied at a concrete configuration. -/
theorem c3_rate_limited_retry_bound_witness :
    (send_invite_email
        ⟨some ("k"), ("noreply@capmatch.com"), false, none, none, false⟩
        (fun _ => ProviderOutcome.rateLimited)
        ("user@example.com") none ("h") ("t") none).providerCalls = MAX_RETRIES
    ∧ (send_invite_email
        ⟨some ("k"), ("noreply@capmatch.com"), false, none, none, false⟩
        (fun _ => ProviderOutcome.rateLimited)
        ("user@example.com") none ("h") ("t") none).success = false := by
  have h := c3_rate_limited_retry_bound
    ⟨some ("k"), ("noreply@capmatch.com"), false, none, none, false⟩
    rfl (by decide) ("user@example.com") none ("h") ("t") none
  exact ⟨h.1, h.2.2.1⟩

/-- C4: when the first provider call raises a non-rate-limit error (another
provider-classified ResendError, or any other exception), exactly one provider
call occurs and send_invite_email returns False. -/
theorem c4_terminal_error_fails_immediately (cfg : Config)
    (prov : Nat → ProviderOutcome)
    (hdry : cfg.INVITE_EMAIL_DRY_RUN = false)
    (hkey : pyTruthy cfg.RESEND_API_KEY = true)
    (hterm : prov 1 = ProviderOutcome.resendError
      ∨ prov 1 = ProviderOutcome.otherError)
    (email : String) (un : Option String) (hb tb : String) (org : Option String) :
    (send_invite_email cfg prov email un hb tb org).providerCalls = 1
    ∧ (send_invite_email cfg prov email un hb tb org).success = false := by
  rcases hterm with h | h <;>
    simp [send_invite_email, hdry, hkey, send_with_throttle_retry,
      attemptNumbers_eq, runAttempts, h]

/-- C4 (witness): the terminal-error theorem applied at a concrete input. -/
theorem c4_terminal_error_fails_immediately_witness :
    (send_invite_email
        ⟨some ("k"), ("noreply@capmatch.com"), false, none, none, false⟩
        (fun _ => ProviderOutcome.resendError)
        ("user@example.com") none ("h") ("t") none).providerCalls = 1
    ∧ (send_invite_email
        ⟨some ("k"), ("noreply@capmatch.com"), false, none, none, false⟩
        (fun _ => ProviderOutcome.resendError)
        ("user@example.com") none ("h") ("t") none).success = false :=
  c4_terminal_error_fails_immediately
    ⟨some ("k"), ("noreply@capmatch.com"), false, none, none, false⟩
    (fun _ => ProviderOutcome.resendError) rfl (by decide) (Or.inl rfl)
    ("user@example.com") none ("h") ("t") none

/-- C5 (counterexample): the claim that success requires a non-empty message
identifier fails on the code - a provider response whose id is the empty string
(with no error thrown) is reported as success, because the source tests only
(message_id is not None). -/
theorem c5_empty_id_counterexample :
    (send_invite_email
        ⟨some ("k"), ("noreply@capmatch.com"), false, none, none, false⟩
        (fun _ => ProviderOutcome.ok (some ("")))
        ("user@example.com") none ("h") ("t") none).success = true := by
  decide

/-- C5 (amended): the Sender reports success iff the provider response carries
a message identifier that is present (non-null): an absent identifier with no
thrown error is reported as failure, but an empty-string identifier counts as
present and is reported as success. -/
theorem c5_success_iff_id_present (cfg : Config) (prov : Nat → ProviderOutcome)
    (id : Option String)
    (hdry : cfg.INVITE_EMAIL_DRY_RUN = false)
    (hkey : pyTruthy cfg.RESEND_API_KEY = true)
    (hok : prov 1 = ProviderOutcome.ok id)
    (email : String) (un : Option String) (hb tb : String) (org : Option String) :
    (send_invite_email cfg prov email un hb tb org).success = id.isSome
    ∧ (send_invite_email cfg prov email un hb tb org).providerCalls = 1 := by
  simp [send_invite_email, hdry, hkey, send_with_throttle_retry,
    attemptNumbers_eq, runAttempts, hok]

/-- C5 (witness): a response with an absent identifier and no thrown error is
reported as failure. -/
theorem c5_success_iff_id_present_witness :
    (send_invite_email
        ⟨some ("k"), ("noreply@capmatch.com"), false, none, none, false⟩
        (fun _ => ProviderOutcome.ok none)
        ("user@example.com") none ("h") ("t") none).success = false :=
  (c5_success_iff_id_present
    ⟨some ("k"), ("noreply@capmatch.com"), false, none, none, false⟩
    (fun _ => ProviderOutcome.ok none) none rfl (by decide) rfl
    ("user@example.com") none ("h") ("t") none).1

/-- C6: the recipient is resolved before every send (the SendOutcome recipient
is determine_recipient's result, computed ahead of the dry-run and provider
paths), and resolution follows the fixed precedence: a truthy force-override
address wins; otherwise, in test mode with a truthy test recipient, the test
recipient; otherwise (not in test mode) the work item's real address. -/
theorem c6_recipient_resolution_precedence (cfg : Config) (email : String)
    (prov : Nat → ProviderOutcome) (un : Option String) (hb tb : String)
    (org : Option String) :
    ((send_invite_email cfg prov email un hb tb org).recipient
        = determine_recipient cfg email)
    ∧ (∀ f, cfg.RESEND_FORCE_TO_EMAIL = some f → ¬f.isEmpty →
        determine_recipient cfg email = f)
    ∧ (pyTruthy cfg.RESEND_FORCE_TO_EMAIL = false → cfg.RESEND_TEST_MODE = true →
        ∀ r, cfg.RESEND_TEST_RECIPIENT = some r → ¬r.isEmpty →
        determine_recipient cfg email = r)
    ∧ (pyTruthy cfg.RESEND_FORCE_TO_EMAIL = false → cfg.RESEND_TEST_MODE = false →
        determine_recipient cfg email = email) := by
  refine ⟨?_, ?_, ?_, ?_⟩
  · simp only [send_invite_email]
    split
    · rfl
    · split
      · rfl
      · split <;> rfl
  · intro f hf hne
    have ht : pyTruthy cfg.RESEND_FORCE_TO_EMAIL = true := by simp [pyTruthy, hf, hne]
    unfold determine_recipient
    rw [ht, hf]
    simp
  · intro hforce htest r hr hne
    have ht : pyTruthy cfg.RESEND_TEST_RECIPIENT = true := by simp [pyTruthy, hr, hne]
    unfold determine_recipient
    rw [hforce, htest, ht, hr]
    simp
  · intro hforce htest
    unfold determine_recipient
    rw [hforce, htest]
    simp

/-- C6 (witness): with a force-override configured alongside test mode and a
real address, the resolved recipient is the force-override. -/
theorem c6_recipient_resolution_precedence_witness :
    determine_recipient
      ⟨some ("k"), ("noreply@capmatch.com"), true, some ("test@capmatch.com"),
        some ("force@capmatch.com"), true⟩
      ("real@example.com") = ("force@capmatch.com") :=
  (c6_recipient_resolution_precedence
    ⟨some ("k"), ("noreply@capmatch.com"), true, some ("test@capmatch.com"),
      some ("force@capmatch.com"), true⟩
    ("real@example.com") (fun _ => ProviderOutcome.rateLimited) none ("h") ("t")
    none).2.1 ("force@capmatch.com") rfl (by decide)

/-- C7: with dry-run enabled the Sender makes no provider call and returns
success unconditionally, and the Coordinator - whenever it invoked the Sender
at all - then attempts the email_sent_at commit exactly once and reports
overall success, just as after a real successful send. -/
theorem c7_dry_run_success_and_commit (cfg : Config)
    (hdry : cfg.INVITE_EMAIL_DRY_RUN = true)
    (prov : Nat → ProviderOutcome) (email : String) (un : Option String)
    (hb tb : String) (org : Option String) (tmpl : String) (store : StoreEnv)
    (inv : Invite) (url : String) :
    (send_invite_email cfg prov email un hb tb org).success = true
    ∧ (send_invite_email cfg prov email un hb tb org).providerCalls = 0
    ∧ ((process_invite tmpl cfg prov store inv url).senderInvocations = 1 →
        (process_invite tmpl cfg prov store inv url).providerCalls = 0
        ∧ (process_invite tmpl cfg prov store inv url).updateAttempts = 1
        ∧ (process_invite tmpl cfg prov store inv url).result = true) := by
  refine ⟨by simp [send_invite_email, hdry], by simp [send_invite_email, hdry], ?_⟩
  by_cases h1 : (falsyStr (built_email tmpl store inv url).1
      || falsyStr (built_email tmpl store inv url).2) = true
  · simp [process_invite, h1]
  · have hs := send_dry_run_eq cfg hdry prov inv.invited_email none
      ((built_email tmpl store inv url).1.getD (""))
      ((built_email tmpl store inv url).2.getD ("")) (org_display_name store inv)
    by_cases h3 : store.updateFails = true <;>
      simp [process_invite, h1, hs, h3]

/-- C7 (witness): a concrete dry-run processing run commits and succeeds with
zero provider calls. -/
theorem c7_dry_run_success_and_commit_witness :
    (process_invite ("X")
        ⟨some ("k"), ("noreply@capmatch.com"), false, none, none, true⟩
        (fun _ => ProviderOutcome.rateLimited) ⟨none, none, false⟩
        ⟨("inv-1"), ("pending"), none, none, some ("tok"), none,
          ("user@example.com"), none⟩
        ("https://app.capmatch.com")).providerCalls = 0
    ∧ (process_invite ("X")
        ⟨some ("k"), ("noreply@capmatch.com"), false, none, none, true⟩
        (fun _ => ProviderOutcome.rateLimited) ⟨none, none, false⟩
        ⟨("inv-1"), ("pending"), none, none, some ("tok"), none,
          ("user@example.com"), none⟩
        ("https://app.capmatch.com")).updateAttempts = 1
    ∧ (process_invite ("X")
        ⟨some ("k"), ("noreply@capmatch.com"), false, none, none, true⟩
        (fun _ => ProviderOutcome.rateLimited) ⟨none, none, false⟩
        ⟨("inv-1"), ("pending"), none, none, some ("tok"), none,
          ("user@example.com"), none⟩
        ("https://app.capmatch.com")).result = true :=
  (c7_dry_run_success_and_commit
    ⟨some ("k"), ("noreply@capmatch.com"), false, none, none, true⟩ rfl
    (fun _ => ProviderOutcome.rateLimited) ("user@example.com") none ("h") ("t")
    none ("X") ⟨none, none, false⟩
    ⟨("inv-1"), ("pending"), none, none, some ("tok"), none,
      ("user@example.com"), none⟩
    ("https://app.capmatch.com")).2.2 (by decide)

/-- C8: digest grouping partitions events by project then by type - the group
keys are exactly the first-seen project order; every (project, type) group is
exactly the events of that project and type, in input order; the rendered
section list is one card per project in first-seen order; per-type summary
counts (and the chat-mention count for the recipient) equal the number of
matching events; and the built html embeds the sections joined in that order
(determinism is by construction: the builder is a pure function). -/
theorem c8_digest_grouping_order_counts (events : List DigestEvent)
    (user_id : String) (project_names : List (String × String)) :
    (keysOf (by_project events) = projectOrder events)
    ∧ (∀ p t, lookupT (lookupP (by_project events) p) t
        = events.filter (fun e => e.project_id == p && e.event_type == t))
    ∧ ((by_project events).map (fun g =>
          render_project_card (dictGet project_names g.1 ("A project")) g.2 user_id)
        = (projectOrder events).map (fun p =>
          render_project_card (dictGet project_names p ("A project"))
            (lookupP (by_project events) p) user_id))
    ∧ (∀ p tg, (p, tg) ∈ by_project events →
        (lookupT tg ("chat_message_sent")).length
          = (events.filter (fun e =>
              e.project_id == p && e.event_type == ("chat_message_sent"))).length
        ∧ ((lookupT tg ("chat_message_sent")).filter
              (fun m => m.mentioned_user_ids.contains user_id)).length
          = (events.filter (fun e =>
              e.project_id == p && e.event_type == ("chat_message_sent")
                && e.mentioned_user_ids.contains user_id)).length
        ∧ (lookupT tg ("document_uploaded")).length
          = (events.filter (fun e =>
              e.project_id == p && e.event_type == ("document_uploaded"))).length)
    ∧ (∀ (templateHtml : String) (user_name : Option String)
        (digest_date : DateTime),
        events.isEmpty = false → templateHtml.isEmpty = false →
        (build_digest_email templateHtml events user_name project_names user_id
            digest_date).1
          = some (pyReplace (pyReplace (pyReplace (pyReplace (pyReplace (pyReplace
              templateHtml
              ("\x7b\x7bPREVIEW_TEXT\x7d\x7d") (build_preview_text events))
              ("\x7b\x7bUSER_NAME\x7d\x7d") (pyOr user_name ("there")))
              ("\x7b\x7bDIGEST_DATE\x7d\x7d") digest_date.formatted)
              ("\x7b\x7bCTA_URL\x7d\x7d") CTA_URL)
              ("\x7b\x7bMANAGE_PREFS_URL\x7d\x7d") MANAGE_PREFS_URL)
              ("<!--PROJECT_SECTIONS-->")
              (("\n").intercalate ((projectOrder events).map (fun p =>
                render_project_card (dictGet project_names p ("A project"))
                  (lookupP (by_project events) p) user_id))))) := by
  have hmap : (by_project events).map (fun g =>
        render_project_card (dictGet project_names g.1 ("A project")) g.2 user_id)
      = (projectOrder events).map (fun p =>
        render_project_card (dictGet project_names p ("A project"))
          (lookupP (by_project events) p) user_id) := by
    rw [map_eq_keys_map (by_project events) _ (by_project_keys_nodup events),
      by_project_keys]
  refine ⟨by_project_keys events, fun p t => by_project_lookup events p t, hmap,
    ?_, ?_⟩
  · intro p tg hmem
    have htg : lookupP (by_project events) p = tg :=
      lookupP_of_mem _ p tg (by_project_keys_nodup events) hmem
    rw [← htg]
    refine ⟨?_, ?_, ?_⟩
    · rw [by_project_lookup]
    · rw [by_project_lookup, List.filter_filter]
      apply congrArg List.length
      apply List.filter_congr
      intro a _
      cases ha : (a.project_id == p) <;>
        cases hb : (a.event_type == ("chat_message_sent")) <;>
        cases hc : (a.mentioned_user_ids.contains user_id) <;> simp
    · rw [by_project_lookup]
  · intro tmpl un d hev htmpl
    simp only [build_digest_email, hev, htmpl, Bool.false_eq_true, if_false]
    rw [hmap]

/-- C8 (witness): on the spec's example [A-chat, B-doc, A-doc] the groups come
out in first-seen project order A then B, and project A's chat count is the
number of its chat events. -/
theorem c8_digest_grouping_order_counts_witness :
    keysOf (by_project
        [⟨("e1"), ("A"), ("chat_message_sent"), [("u")]⟩,
         ⟨("e2"), ("B"), ("document_uploaded"), []⟩,
         ⟨("e3"), ("A"), ("document_uploaded"), []⟩]) = [("A"), ("B")]
    ∧ (lookupT ([(("chat_message_sent"),
          [⟨("e1"), ("A"), ("chat_message_sent"), [("u")]⟩]),
        (("document_uploaded"),
          [⟨("e3"), ("A"), ("document_uploaded"), []⟩])] : TypeGroups)
          ("chat_message_sent")).length
      = (([⟨("e1"), ("A"), ("chat_message_sent"), [("u")]⟩,
          ⟨("e2"), ("B"), ("document_uploaded"), []⟩,
          ⟨("e3"), ("A"), ("document_uploaded"), []⟩] : List DigestEvent).filter
            (fun e => e.project_id == ("A")
              && e.event_type == ("chat_message_sent"))).length := by
  have h := c8_digest_grouping_order_counts
    [⟨("e1"), ("A"), ("chat_message_sent"), [("u")]⟩,
     ⟨("e2"), ("B"), ("document_uploaded"), []⟩,
     ⟨("e3"), ("A"), ("document_uploaded"), []⟩]
    ("u") [(("A"), ("Project A")), (("B"), ("Project B"))]
  refine ⟨h.1.trans (by decide), ?_⟩
  exact (h.2.2.2.1 ("A")
    [(("chat_message_sent"), [⟨("e1"), ("A"), ("chat_message_sent"), [("u")]⟩]),
     (("document_uploaded"), [⟨("e3"), ("A"), ("document_uploaded"), []⟩])]
    (by decide)).1

/-- C9: missing optional fields never break rendering - a build with the field
absent equals the build with the documented default in its place: org defaults
to "CapMatch", inviter to "a member of your team", expiry to "soon" (invite
builder), and the recipient display name to "there" (digest builder); all
builders are total functions, so no call raises. -/
theorem c9_renderer_fallback_defaults :
    (∀ (tmpl email : String) (invitee inviter : Option String) (url : String)
        (exp : Option DateTime),
      InviteBuilder.build_invite_email tmpl email invitee none inviter url exp
        = InviteBuilder.build_invite_email tmpl email invitee (some ("CapMatch"))
            inviter url exp)
    ∧ (∀ (tmpl email : String) (invitee org : Option String) (url : String)
        (exp : Option DateTime),
      InviteBuilder.build_invite_email tmpl email invitee org none url exp
        = InviteBuilder.build_invite_email tmpl email invitee org
            (some ("a member of your team")) url exp)
    ∧ (∀ (tmpl email : String) (invitee org inviter : Option String) (url : String),
      InviteBuilder.build_invite_email tmpl email invitee org inviter url none
        = InviteBuilder.build_invite_email tmpl email invitee org inviter url
            (some ⟨("soon")⟩))
    ∧ (∀ (tmpl : String) (events : List DigestEvent)
        (pn : List (String × String)) (uid : String) (d : DateTime),
      build_digest_email tmpl events none pn uid d
        = build_digest_email tmpl events (some ("there")) pn uid d) :=
  ⟨fun _ _ _ _ _ _ => rfl, fun _ _ _ _ _ _ => rfl, fun _ _ _ _ _ _ => rfl,
    fun _ _ _ _ _ => rfl⟩

/-- C10: webhook authentication (spec-modelled: the endpoint source is not
under src/) rejects with StaleRequest whenever |now - timestamp| exceeds 300
seconds; within the window it accepts exactly the requests whose signature
equals the recomputed MAC over timestamp + "." + raw_body and rejects the rest
with InvalidSignature; and the comparison used is a constant-time scan that
coincides with string equality. -/
theorem c10_webhook_signature_verification (sec : String)
    (mac : String → String → String) (now ts : Int) (tsh body sig : String)
    (hsec : ¬sec.isEmpty) (hts : parseIntHeader tsh = some ts) :
    ((now - ts).natAbs > 300 →
      verify_webhook (some sec) mac now tsh body sig
        = Except.error WebhookReject.StaleRequest)
    ∧ ((now - ts).natAbs ≤ 300 → sig = mac sec (tsh ++ (".") ++ body) →
      verify_webhook (some sec) mac now tsh body sig = Except.ok ())
    ∧ ((now - ts).natAbs ≤ 300 → sig ≠ mac sec (tsh ++ (".") ++ body) →
      verify_webhook (some sec) mac now tsh body sig
        = Except.error WebhookReject.InvalidSignature)
    ∧ (∀ a b, constantTimeEq a b = true ↔ a = b) := by
  refine ⟨?_, ?_, ?_, ctEq_iff⟩
  · intro hstale
    simp [verify_webhook, hsec, hts, hstale]
  · intro hin hsig
    have hc : constantTimeEq sig (mac sec (tsh ++ (".") ++ body)) = true :=
      (ctEq_iff _ _).mpr hsig
    simp [verify_webhook, hsec, hts, Nat.not_lt.mpr hin, hc]
  · intro hin hsig
    have hc : constantTimeEq sig (mac sec (tsh ++ (".") ++ body)) ≠ true := by
      intro hcc
      exact hsig ((ctEq_iff _ _).mp hcc)
    simp [verify_webhook, hsec, hts, Nat.not_lt.mpr hin, hc]

/-- C10 (witness): a correctly signed concrete request inside the window is
accepted. -/
theorem c10_webhook_signature_verification_witness :
    verify_webhook (some ("supersecret")) (fun k m => k ++ ("|") ++ m) 100
      ("100") ("payload") ("supersecret|100.payload") = Except.ok () :=
  (c10_webhook_signature_verification ("supersecret")
    (fun k m => k ++ ("|") ++ m) 100 100 ("100") ("payload")
    ("supersecret|100.payload") (by decide) (by decide)).2.1
    (by decide) (by decide)

end CapmatchComms
